import Mathlib

/-!
Verification of the HoroQuiz repository (frontend TypeScript client plus the
MySQL storage schema in `backend/migrations/20260226180000_init.sql`) against
its natural-language specification.  Each definition is a shallow embedding of
one source construct, named after it where Lean allows.
-/

namespace HoroQuiz

/-- Structural model of a JavaScript JSON value (the result of `JSON.parse`,
the input of `JSON.stringify`).  Objects keep their field order, as the JS
runtime does for string keys. -/
inductive Json where
| jnull : Json
| jbool : Bool → Json
| jnum : Int → Json
| jstr : String → Json
| jarr : List Json → Json
| jobj : List (String × Json) → Json

/-- The frontend WebSocket envelope type, `WsEnvelope` in
`frontend/src/types.ts` lines 27-32: fields `event`, `payload`,
`request_id?`, `ts?`. -/
structure WsEnvelope where
  event : String
  payload : List (String × Json)
  request_id : Option String
  ts : Option String

/-- The JSON object fields produced when a `WsEnvelope` is serialised:
`JSON.stringify` emits present fields in declaration order and omits the
optional fields that are `undefined`. -/
def envelopeFields (e : WsEnvelope) : List (String × Json) :=
  [(("event" : String), Json.jstr e.event), (("payload" : String), Json.jobj e.payload)]
    ++ (match e.request_id with
        | some r => [(("request_id" : String), Json.jstr r)]
        | none => [])
    ++ (match e.ts with
        | some t => [(("ts" : String), Json.jstr t)]
        | none => [])

/-- Serialising an envelope (`JSON.stringify`), modelled structurally. -/
def serializeEnvelope (e : WsEnvelope) : Json :=
  Json.jobj (envelopeFields e)

/-- Names of the fields present on the wire for a given envelope. -/
def envelopeFieldNames (e : WsEnvelope) : List String :=
  (envelopeFields e).map Prod.fst

/-- First-match lookup of a key in a JSON object's field list. -/
def jsonLookup : List (String × Json) → String → Option Json
| [], _ => none
| (k, v) :: rest, key => if k = key then some v else jsonLookup rest key

/-- Reads a JSON value as a string, if it is one. -/
def asStr : Json → Option String
| Json.jstr s => some s
| _ => none

/-- Reads a JSON value as an object, if it is one. -/
def asObj : Json → Option (List (String × Json))
| Json.jobj fields => some fields
| _ => none

/-- Parsing a JSON value back into the `WsEnvelope` shape of
`frontend/src/types.ts`: required `event` (string) and `payload` (object),
optional `request_id` and `ts` strings. -/
def parseEnvelope (j : Json) : Option WsEnvelope :=
  match asObj j with
  | none => none
  | some fields =>
    match (jsonLookup fields ("event")).bind asStr,
          (jsonLookup fields ("payload")).bind asObj with
    | some ev, some pl =>
      some { event := ev
             payload := pl
             request_id := (jsonLookup fields ("request_id")).bind asStr
             ts := (jsonLookup fields ("ts")).bind asStr }
    | _, _ => none

/-- The `socket.onmessage` handler installed by `connectRoom` in
`frontend/src/lib/ws.ts`: `JSON.parse` runs inside `try`, a successful parse
invokes the room message handler with the value, a parse failure is caught
and ignored.  `parse` stands for the JS runtime's `JSON.parse`. -/
def connectRoomOnMessage (parse : String → Except String Json) (frameData : String) :
    Option Json :=
  match parse frameData with
  | Except.ok value => some value
  | Except.error _ => none

/-- The sequence of room-handler invocations over a list of incoming frames,
in arrival order. -/
def roomHandlerCalls (parse : String → Except String Json) (frames : List String) :
    List Json :=
  frames.filterMap (connectRoomOnMessage parse)

/-- Game modes the teacher client may put in a session-creation request:
the `gameMode` parameter type of `createSession` in
`frontend/src/lib/api.ts` line 52. -/
def createSessionModes : List String :=
  ["platformer", "shooter", "classic"]

/-- The mode chosen by `startSession` in `frontend/src/App.tsx` line 93:
`modeByQuiz[quizId] ?? 'classic'` — the stored selection when present,
otherwise the default `classic`. -/
def startSessionMode (selected : Option String) : String :=
  selected.getD ("classic")

/-- Values admitted by the `game_mode` column of `game_sessions` in
`backend/migrations/20260226180000_init.sql` line 84:
`ENUM('platformer', 'shooter', 'tycoon') NOT NULL`. -/
def gameSessionsModeEnum : List String :=
  ["platformer", "shooter", "tycoon"]

/-- Whether a `game_mode` value is storable by the `game_sessions` schema:
MySQL strict mode rejects any value outside the column's ENUM list. -/
def gameSessionRowModeOk (m : String) : Bool :=
  gameSessionsModeEnum.contains m

/-- Whether the student client runs the game gate for a mode:
`StudentPlayPage` in `frontend/src/App.tsx` renders the `GameCanvas` and its
question overlay exactly when `mode !== 'classic'`. -/
def gameGateEnabled (m : String) : Bool :=
  !(m = "classic")

/-- A `window.message` event payload as read by the `GameCanvas` handler:
`event.data as { type?, source?, reason? }`. -/
structure GameMessage where
  mtype : String
  reason : String

/-- One step of the `onMessage` handler of
`frontend/src/components/GameCanvas.tsx` lines 78-91, acting on the
`lastEmitRef` state.  Non-`quiz_game_event` messages are dropped; a message
within 900 ms of `lastEmitRef` is dropped; otherwise `lastEmitRef` is set to
`now` and `onTrigger('death')` fires exactly when the mode is `platformer`
or `shooter` and the reason is `death`.  Returns the new `lastEmitRef` and
the reason passed to `onTrigger`, if any. -/
def canvasStep (mode : String) (lastEmit : Int) (now : Int) (msg : GameMessage) :
    Int × Option String :=
  if !(msg.mtype = "quiz_game_event") then (lastEmit, none)
  else if now - lastEmit < 900 then (lastEmit, none)
  else
    let emitted :=
      if mode = "platformer" && msg.reason = "death" then some ("death")
      else if mode = "shooter" && msg.reason = "death" then some ("death")
      else none
    (now, emitted)

/-- Running the `GameCanvas` message handler over a timestamped message
trace, collecting the times at which `onTrigger` fired. -/
def canvasRun (mode : String) : Int → List (Int × GameMessage) → List Int
| _, [] => []
| lastEmit, (now, msg) :: rest =>
  match canvasStep mode lastEmit now msg with
  | (le, some _) => now :: canvasRun mode le rest
  | (le, none) => canvasRun mode le rest

/-- Question type tag, `QuestionType = 'open' | 'single' | 'multi'` in
`frontend/src/types.ts`. -/
inductive QType where
| qOpen : QType
| qSingle : QType
| qMulti : QType
deriving DecidableEq

/-- An answer option, `QuizOption` in `frontend/src/types.ts`. -/
structure QuizOption where
  id : String
  text : String
deriving DecidableEq

/-- The client-visible question used by `QuestionCard`
(`frontend/src/components/QuestionCard.tsx`): id, type, prompt and the
ordered options (the card reads `question.options ?? []`, modelled as the
plain list). -/
structure ClientQuestion where
  id : String
  qtype : QType
  prompt : String
  options : List QuizOption

/-- Option ids of a client question, in rendered order. -/
def clientOptionIds (q : ClientQuestion) : List String :=
  q.options.map QuizOption.id

/-- Local state of the `QuestionCard` component: the `open`, `single` and
`multi` `useState` hooks. -/
structure CardState where
  openText : String
  single : String
  multi : List String

/-- Initial `QuestionCard` state: `useState('')`, `useState('')`,
`useState<string[]>([])`. -/
def initCardState : CardState :=
  { openText := "", single := "", multi := [] }

/-- User interactions on the rendered card.  Option interactions are clicks
on the control rendered for the i-th entry of `question.options`; no other
option control exists in the DOM. -/
inductive CardEvent where
| setOpen : String → CardEvent
| pickSingle : Nat → CardEvent
| toggleMulti : Nat → CardEvent

/-- One state update of `QuestionCard`.  The multi checkbox is a controlled
input with `checked={multi.includes(o.id)}`, so its `onChange` receives
`checked = !multi.includes(o.id)`: when the id is absent it is appended
(`[...prev, o.id]`), when present it is removed
(`prev.filter((v) => v !== o.id)`). -/
def cardStep (q : ClientQuestion) (st : CardState) : CardEvent → CardState
| CardEvent.setOpen s => { st with openText := s }
| CardEvent.pickSingle i =>
  match (clientOptionIds q)[i]? with
  | some oid => { st with single := oid }
  | none => st
| CardEvent.toggleMulti i =>
  match (clientOptionIds q)[i]? with
  | some oid =>
    if oid ∈ st.multi then { st with multi := st.multi.filter (fun v => !(v = oid)) }
    else { st with multi := st.multi ++ [oid] }
  | none => st

/-- The card state after a sequence of interactions, starting from the
initial state. -/
def runCard (q : ClientQuestion) (evs : List CardEvent) : CardState :=
  evs.foldl (cardStep q) initCardState

/-- The payload passed to `onSubmit` by the three submit buttons of
`QuestionCard`: `{text}`, `{optionId}` or `{optionIds}`. -/
inductive SubmitPayload where
| ptext : String → SubmitPayload
| poptionId : String → SubmitPayload
| poptionIds : List String → SubmitPayload

/-- Which submit button `QuestionCard` renders is decided by
`question.type`, and each button sends the state of its own input. -/
def cardSubmit (q : ClientQuestion) (st : CardState) : SubmitPayload :=
  match q.qtype with
  | QType.qOpen => SubmitPayload.ptext st.openText
  | QType.qSingle => SubmitPayload.poptionId st.single
  | QType.qMulti => SubmitPayload.poptionIds st.multi

/-- The question type a payload shape belongs to. -/
def payloadShape : SubmitPayload → QType
| SubmitPayload.ptext _ => QType.qOpen
| SubmitPayload.poptionId _ => QType.qSingle
| SubmitPayload.poptionIds _ => QType.qMulti

/-- Canonical answer key, the `AnswerKey` union of `frontend/src/types.ts`:
`{text}` for open, `{optionId}` for single, `{optionIds}` for multi. -/
inductive AnswerKey where
| keyText : String → AnswerKey
| keyOption : String → AnswerKey
| keyOptions : List String → AnswerKey
deriving DecidableEq

/-- A question as sent in the quiz payload, `Question` in
`frontend/src/types.ts`: id, type, prompt, options and the answer key. -/
structure PayloadQuestion where
  id : String
  qtype : QType
  prompt : String
  options : List QuizOption
  answer : AnswerKey

/-- A question being edited in the quiz builder, the `DraftQuestion` local
type of `NewQuizPage` in `frontend/src/App.tsx` lines 142-150. -/
structure DraftQuestion where
  id : String
  dtype : QType
  prompt : String
  options : List String
  openAnswer : String
  singleCorrect : Int
  multiCorrect : List Bool

/-- The option objects built by `toQuizPayload`
(`frontend/src/App.tsx` line 188): ids `o1`, `o2`, ... by position, trimmed
texts. -/
def draftOptions (d : DraftQuestion) : List QuizOption :=
  d.options.enum.map (fun p => { id := "o" ++ toString (p.1 + 1), text := p.2.trim })

/-- The single-choice answer id chosen by `toQuizPayload`
(line 195): the option at index `max(0, min(singleCorrect, length - 1))`,
falling back to `o1` when no option exists. -/
def singleAnswerId (d : DraftQuestion) : String :=
  let opts := draftOptions d
  let j := (max 0 (min d.singleCorrect ((opts.length : Int) - 1))).toNat
  ((opts.get? j).map QuizOption.id).getD ("o1")

/-- The ids of the options whose checkbox is ticked in the builder:
`options.filter((_, idx) => q.multiCorrect[idx]).map((o) => o.id)` in
`toQuizPayload` (absent `multiCorrect` entries are falsy). -/
def multiSelectedIds (d : DraftQuestion) : List String :=
  (((draftOptions d).enum.filter (fun p => d.multiCorrect.getD p.1 false)).map
    (fun p => p.2.id))

/-- The multi-choice answer ids chosen by `toQuizPayload`
(lines 199-207): the ticked option ids, and when none is ticked the
fallback singleton `[options[0]?.id ?? 'o1']`. -/
def multiAnswerIds (d : DraftQuestion) : List String :=
  if (multiSelectedIds d).length > 0 then multiSelectedIds d
  else [(((draftOptions d).head?).map QuizOption.id).getD ("o1")]

/-- The question produced by `toQuizPayload` in `frontend/src/App.tsx`
lines 177-217 for one draft question, by its type. -/
def toQuizQuestion (d : DraftQuestion) : PayloadQuestion :=
  match d.dtype with
  | QType.qOpen =>
    { id := d.id, qtype := QType.qOpen, prompt := d.prompt.trim, options := [],
      answer := AnswerKey.keyText d.openAnswer.trim }
  | QType.qSingle =>
    { id := d.id, qtype := QType.qSingle, prompt := d.prompt.trim,
      options := draftOptions d, answer := AnswerKey.keyOption (singleAnswerId d) }
  | QType.qMulti =>
    { id := d.id, qtype := QType.qMulti, prompt := d.prompt.trim,
      options := draftOptions d, answer := AnswerKey.keyOptions (multiAnswerIds d) }

/-- A row of `session_stats_aggregate`
(`backend/migrations/20260226180000_init.sql` lines 138-149).
`participant_id` is a nullable column (`BIGINT NULL`, NULL meaning the
class-wide row), modelled as `Option Nat`. -/
structure StatsAggRow where
  session_id : Nat
  participant_id : Option Nat
  correct_count : Nat
  wrong_count : Nat
deriving DecidableEq

/-- When two `session_stats_aggregate` rows collide on the declared
`UNIQUE KEY uk_session_stats_aggregate (session_id, participant_id)`.
Under MySQL semantics a unique index permits any number of rows whose
indexed tuple contains NULL, so a conflict requires both `participant_id`
values to be the same non-NULL id. -/
def aggKeyConflict (a b : StatsAggRow) : Prop :=
  a.session_id = b.session_id ∧ a.participant_id ≠ none ∧
    a.participant_id = b.participant_id

/-- A `session_stats_aggregate` table state accepted by the schema: no two
rows violate the unique key (MySQL NULL semantics as above). -/
def statsAggUniqueOk (rows : List StatsAggRow) : Prop :=
  rows.Pairwise (fun a b => ¬ aggKeyConflict a b)

/-- Number of class-wide rows (`participant_id` NULL) of one session. -/
def classRowCount (sid : Nat) (rows : List StatsAggRow) : Nat :=
  (rows.filter (fun r => decide (r.session_id = sid ∧ r.participant_id = none))).length

/-- Number of rows of one session for one concrete participant. -/
def participantRowCount (sid pid : Nat) (rows : List StatsAggRow) : Nat :=
  (rows.filter (fun r => decide (r.session_id = sid ∧ r.participant_id = some pid))).length

/-- A row of `session_answers` (migration lines 121-136); the four columns
of `UNIQUE KEY uk_session_answers_attempt` are all `NOT NULL`. -/
structure SessionAnswerRow where
  session_id : Nat
  participant_id : Nat
  question_id : Nat
  attempt_no : Nat
  is_correct : Bool
deriving DecidableEq

/-- The tuple covered by `uk_session_answers_attempt`. -/
def answerKeyTuple (r : SessionAnswerRow) : Nat × Nat × Nat × Nat :=
  (r.session_id, r.participant_id, r.question_id, r.attempt_no)

/-- A `session_answers` state accepted by the schema: the unique key holds
(no NULL column participates, so this is plain tuple uniqueness). -/
def sessionAnswersUniqueOk (rows : List SessionAnswerRow) : Prop :=
  rows.Pairwise (fun a b => answerKeyTuple a ≠ answerKeyTuple b)

/-- A row of `session_participants` (migration lines 94-104); both columns
of `UNIQUE KEY uk_session_participants (session_id, nickname)` are
`NOT NULL`. -/
structure SessionParticipantRow where
  session_id : Nat
  nickname : String
  join_state : String
deriving DecidableEq

/-- The tuple covered by `uk_session_participants`. -/
def participantKeyTuple (r : SessionParticipantRow) : Nat × String :=
  (r.session_id, r.nickname)

/-- A `session_participants` state accepted by the schema. -/
def sessionParticipantsUniqueOk (rows : List SessionParticipantRow) : Prop :=
  rows.Pairwise (fun a b => participantKeyTuple a ≠ participantKeyTuple b)

/-- A row of `quiz_answers` (migration lines 59-66): `question_id` is
`NOT NULL UNIQUE`, the three answer columns are all nullable
(`open_text TEXT NULL`, `single_option_external_id VARCHAR(64) NULL`,
`multi_option_external_ids JSON NULL`). -/
structure QuizAnswersRow where
  question_id : Nat
  open_text : Option String
  single_option_external_id : Option String
  multi_option_external_ids : Option (List String)

/-- Per-row acceptance by the `quiz_answers` schema.  The DDL declares no
CHECK constraint and the answer columns are nullable, so beyond the column
types (already carried by `QuizAnswersRow`) every row is accepted. -/
def quizAnswersRowOk (_ : QuizAnswersRow) : Bool :=
  true

/-- Modelled from the spec: the Answer Grader's verdict
(`Correct | Incorrect | Malformed`, spec 4.1).  The grader itself lives in
the Rust backend (`backend`, exercised by the scoring unit tests named in
the README), which is not part of the provided sources. -/
inductive Verdict where
| Correct : Verdict
| Incorrect : Verdict
| Malformed : Verdict
deriving DecidableEq

/-- Modelled from the spec: a submitted answer payload, one of
`{text: string}`, `{optionId: string}`, `{optionIds: string[]}`
(spec 4.1). -/
inductive Submission where
| subText : String → Submission
| subOption : String → Submission
| subOptions : List String → Submission

/-- Modelled from the spec: the punctuation set stripped by the open-answer
normalisation, the eight characters `. , ! ? ; : " '` (spec 4.1). -/
def punctChars : List Char :=
  [46, 44, 33, 63, 59, 58, 34, 39].map Char.ofNat

/-- Splits a character list into its maximal whitespace-free words,
dropping all whitespace; the accumulator holds the current word
reversed. -/
def wordsAux : List Char → List Char → List (List Char)
| [], acc => if acc.isEmpty then [] else [acc.reverse]
| c :: cs, acc =>
  if c.isWhitespace then
    if acc.isEmpty then wordsAux cs [] else acc.reverse :: wordsAux cs []
  else wordsAux cs (c :: acc)

/-- Joins words with single spaces. -/
def joinWithSpace : List (List Char) → List Char
| [] => []
| [w] => w
| w :: ws => w ++ Char.ofNat 32 :: joinWithSpace ws

/-- Modelled from the spec: open-answer normalisation (spec 4.1) — trim,
collapse internal whitespace to single spaces, lowercase, strip the fixed
punctuation set. -/
def normalizeOpen (s : String) : String :=
  String.mk (((joinWithSpace (wordsAux s.data [])).map Char.toLower).filter
    (fun c => !(punctChars.contains c)))

/-- Modelled from the spec: set equality of submitted and canonical multi
option ids, duplicates ignored (spec 4.1). -/
def sameIdSet (xs ys : List String) : Bool :=
  decide ((∀ x ∈ xs, x ∈ ys) ∧ (∀ y ∈ ys, y ∈ xs))

/-- Modelled from the spec: the Answer Grader (spec 4.1).  A payload whose
shape does not match the question's answer-key shape is `Malformed`; `open`
compares normalised texts; `single` compares the option id (an unknown id
is merely `Incorrect`); `multi` compares the id sets, an empty submission
being `Incorrect`. -/
def grade (q : PayloadQuestion) (sub : Submission) : Verdict :=
  match q.answer, sub with
  | AnswerKey.keyText t, Submission.subText s =>
    if normalizeOpen s = normalizeOpen t then Verdict.Correct else Verdict.Incorrect
  | AnswerKey.keyOption kid, Submission.subOption sid =>
    if sid = kid then Verdict.Correct else Verdict.Incorrect
  | AnswerKey.keyOptions kids, Submission.subOptions sids =>
    if sids.isEmpty then Verdict.Incorrect
    else if sameIdSet sids kids then Verdict.Correct else Verdict.Incorrect
  | _, _ => Verdict.Malformed

/-- The submission that replays a question's own answer key. -/
def submissionOfKey : AnswerKey → Submission
| AnswerKey.keyText t => Submission.subText t
| AnswerKey.keyOption kid => Submission.subOption kid
| AnswerKey.keyOptions kids => Submission.subOptions kids

/-- A question whose stored key is admissible per the data model
(spec 3): a `multi` key is a non-empty set of ids. -/
def keyNonEmpty (q : PayloadQuestion) : Prop :=
  match q.answer with
  | AnswerKey.keyOptions kids => kids ≠ []
  | _ => True

/-! Theorems. -/

/-- C1 counterexample: the claim that a session created with gameMode
`classic` — the teacher client's default selection — is accepted by the
session storage schema is false: `classic` is not a member of the
`game_sessions.game_mode` ENUM, so MySQL rejects the row. -/
theorem c1_classic_not_storable :
    gameSessionRowModeOk (startSessionMode none) = false := by
  decide

/-- C1 (amended): the teacher client offers `platformer`, `shooter` and
`classic` in the session-creation request with `classic` the default, and
`classic` disables the game gate; but the storage ENUM accepts
`platformer`, `shooter` and `tycoon`, so `classic` itself is not a value
the `game_sessions` schema stores. -/
theorem c1_game_mode_amended :
    startSessionMode none = "classic" ∧
    ("classic" ∈ createSessionModes ∧ "platformer" ∈ createSessionModes ∧
      "shooter" ∈ createSessionModes) ∧
    gameGateEnabled ("classic") = false ∧
    (gameSessionRowModeOk ("platformer") = true ∧
      gameSessionRowModeOk ("shooter") = true ∧
      gameSessionRowModeOk ("tycoon") = true ∧
      gameSessionRowModeOk ("classic") = false) := by
  decide

/-- C2 counterexample: a `level_up` game event, received in a game-gated
mode well past the 900 ms throttle, does not invoke the question trigger —
refuting the claim that both event kinds lead to a question push. -/
theorem c2_level_up_never_triggers :
    (canvasStep ("platformer") 0 1000
      { mtype := "quiz_game_event", reason := "level_up" }).2 = none ∧
    (canvasStep ("shooter") 0 1000
      { mtype := "quiz_game_event", reason := "level_up" }).2 = none := by
  decide

/-- C2 (amended): in the game-gated modes only a player-death event issues
a question request — a `death` event past the throttle fires the trigger,
while a `level_up` event never does. -/
theorem c2_death_only_triggers (mode : String) (lastEmit now : Int)
    (msg : GameMessage)
    (hmode : mode = "platformer" ∨ mode = "shooter")
    (hthrottle : 900 ≤ now - lastEmit) :
    (msg.mtype = "quiz_game_event" → msg.reason = "death" →
      canvasStep mode lastEmit now msg = (now, some ("death"))) ∧
    (msg.reason = "level_up" → (canvasStep mode lastEmit now msg).2 = none) := by
  constructor
  · intro hty hreason
    have hnt : ¬ (now - lastEmit < 900) := by omega
    rcases hmode with hm | hm <;>
      simp [canvasStep, hty, hreason, hnt, hm]
  · intro hreason
    by_cases hty : msg.mtype = "quiz_game_event"
    · by_cases hth : now - lastEmit < 900
      · simp [canvasStep, hty, hth]
      · simp [canvasStep, hty, hth, hreason]
    · simp [canvasStep, hty]

/-- C2 witness: a concrete death event in platformer mode, past the
throttle, fires the trigger. -/
theorem c2_death_only_triggers_witness :
    canvasStep ("platformer") 0 1000
      { mtype := "quiz_game_event", reason := "death" } = (1000, some ("death")) :=
  (c2_death_only_triggers ("platformer") 0 1000
    { mtype := "quiz_game_event", reason := "death" }
    (Or.inl rfl) (by decide)).1 rfl rfl

/-- Every case of one `GameCanvas` handler step: either the state is left
unchanged with no trigger, or the event passed the 900 ms throttle, in
which case `lastEmitRef` becomes `now` and the trigger fires only for a
death event. -/
theorem canvasStep_cases (mode : String) (lastEmit now : Int) (msg : GameMessage) :
    canvasStep mode lastEmit now msg = (lastEmit, none) ∨
    (lastEmit + 900 ≤ now ∧
      (canvasStep mode lastEmit now msg = (now, some ("death")) ∨
        canvasStep mode lastEmit now msg = (now, none))) := by
  unfold canvasStep
  by_cases hty : msg.mtype = "quiz_game_event"
  · by_cases hth : now - lastEmit < 900
    · left; simp [hty, hth]
    · right
      refine ⟨by omega, ?_⟩
      by_cases h1 : mode = "platformer" && msg.reason = "death"
      · left; simp [hty, hth, h1]
      · by_cases h2 : mode = "shooter" && msg.reason = "death"
        · left; simp [hty, hth, h1, h2]
        · right; simp [hty, hth, h1, h2]
  · left; simp [hty]

/-- The trigger times collected from any message trace are all at least
900 ms after the `lastEmitRef` the run started from, and consecutive
trigger times are at least 900 ms apart. -/
theorem canvasRun_separated (mode : String) :
    ∀ (trace : List (Int × GameMessage)) (lastEmit : Int),
      (∀ t ∈ canvasRun mode lastEmit trace, lastEmit + 900 ≤ t) ∧
      List.Chain' (fun a b => a + 900 ≤ b) (canvasRun mode lastEmit trace) := by
  intro trace
  induction trace with
  | nil => intro lastEmit; simp [canvasRun]
  | cons p rest ih =>
    intro lastEmit
    obtain ⟨now, msg⟩ := p
    rcases canvasStep_cases mode lastEmit now msg with hstep | ⟨hle, hstep | hstep⟩
    · simpa [canvasRun, hstep] using ih lastEmit
    · have hrun : canvasRun mode lastEmit ((now, msg) :: rest) =
          now :: canvasRun mode now rest := by
        simp [canvasRun, hstep]
      rw [hrun]
      obtain ⟨ihmem, ihchain⟩ := ih now
      refine ⟨?_, ?_⟩
      · intro t ht
        rcases List.mem_cons.mp ht with h | h
        · omega
        · have := ihmem t h
          omega
      · refine List.chain'_cons'.mpr ⟨?_, ihchain⟩
        intro b hb
        have hbmem : b ∈ canvasRun mode now rest := by
          cases hhead : canvasRun mode now rest with
          | nil => simp [hhead] at hb
          | cons x xs =>
            simp [hhead] at hb
            simp [hhead, hb]
        exact ihmem b hbmem
    · have hrun : canvasRun mode lastEmit ((now, msg) :: rest) =
          canvasRun mode now rest := by
        simp [canvasRun, hstep]
      rw [hrun]
      obtain ⟨ihmem, ihchain⟩ := ih now
      refine ⟨?_, ihchain⟩
      intro t ht
      have := ihmem t ht
      omega

/-- C9: runs of the `GameCanvas` message handler never emit two question
triggers fewer than 900 ms apart — consecutive trigger timestamps of any
trace differ by at least 900 ms, so a qualifying event arriving within
900 ms of the previously emitted trigger is dropped. -/
theorem c9_trigger_throttle_separation (mode : String)
    (trace : List (Int × GameMessage)) :
    List.Chain' (fun a b => a + 900 ≤ b) (canvasRun mode 0 trace) :=
  (canvasRun_separated mode trace 0).2

/-- A concrete outbound envelope carrying a request identifier, the input
on which the claimed field name fails. -/
def c4Envelope : WsEnvelope :=
  { event := "question_push", payload := [(("reason" : String), Json.jstr "death")],
    request_id := some ("r-1"), ts := some ("2026-02-26T18:00:00.000Z") }

/-- C4: serialising any envelope and parsing it back yields a structurally
identical value, but on the wire the optional request-identifier field of
the frontend `WsEnvelope` is named `request_id`, not `requestId` as the
spec and `docs/architecture.md` state. -/
theorem c4_envelope_roundtrip_request_id :
    (∀ e : WsEnvelope, parseEnvelope (serializeEnvelope e) = some e) ∧
    envelopeFieldNames c4Envelope = ["event", "payload", "request_id", "ts"] ∧
    ¬ ("requestId" ∈ envelopeFieldNames c4Envelope) := by
  refine ⟨?_, by decide, by decide⟩
  intro e
  obtain ⟨ev, pl, rid, ts⟩ := e
  cases rid <;> cases ts <;>
    simp [serializeEnvelope, envelopeFields, parseEnvelope, asObj, asStr, jsonLookup]

/-- C10: a frame whose text fails `JSON.parse` invokes no room message
handler (the exception is caught inside the socket callback), and the
handler invocations of the surrounding well-formed frames are exactly those
of the trace with the malformed frame removed. -/
theorem c10_malformed_frames_ignored (parse : String → Except String Json)
    (pre post : List String) (bad err : String)
    (hbad : parse bad = Except.error err) :
    connectRoomOnMessage parse bad = none ∧
    roomHandlerCalls parse (pre ++ bad :: post) =
      roomHandlerCalls parse pre ++ roomHandlerCalls parse post := by
  have hnone : connectRoomOnMessage parse bad = none := by
    simp [connectRoomOnMessage, hbad]
  refine ⟨hnone, ?_⟩
  simp [roomHandlerCalls, List.filterMap_append, List.filterMap_cons, hnone]

/-- C10 witness: a concrete parser and trace with one malformed frame in
the middle. -/
theorem c10_malformed_frames_ignored_witness :
    connectRoomOnMessage
      (fun s => if s = "ok" then Except.ok Json.jnull else Except.error s) ("oops") = none ∧
    roomHandlerCalls
      (fun s => if s = "ok" then Except.ok Json.jnull else Except.error s)
      (["ok"] ++ ("oops") :: ["ok"]) =
      roomHandlerCalls
        (fun s => if s = "ok" then Except.ok Json.jnull else Except.error s) ["ok"] ++
      roomHandlerCalls
        (fun s => if s = "ok" then Except.ok Json.jnull else Except.error s) ["ok"] :=
  c10_malformed_frames_ignored
    (fun s => if s = "ok" then Except.ok Json.jnull else Except.error s)
    ["ok"] ["ok"] ("oops") ("oops") (by simp)

/-- Generic uniqueness counting: when the rows of a list are pairwise in a
relation that forbids two of them from both satisfying a predicate, the
predicate matches at most one row. -/
theorem filter_length_le_one {α : Type} (P : α → Bool) (R : α → α → Prop)
    (hPR : ∀ a b, R a b → P a = true → P b = true → False) :
    ∀ l : List α, l.Pairwise R → (l.filter P).length ≤ 1 := by
  intro l
  induction l with
  | nil => simp
  | cons a t ih =>
    intro hp
    rw [List.pairwise_cons] at hp
    by_cases hPa : P a = true
    · have ht : t.filter P = [] := by
        rw [List.filter_eq_nil_iff]
        intro b hb hPb
        exact hPR a b (hp.1 b hb) hPa hPb
      simp [List.filter_cons, hPa, ht]
    · simp only [List.filter_cons, hPa]
      simpa using ih hp.2

/-- C5 counterexample: the `session_stats_aggregate` unique key does not
bound the number of class-wide rows — two rows with `participant_id` NULL
for the same session both satisfy the schema's unique constraint, because a
MySQL unique index treats NULLs as distinct. -/
theorem c5_class_rows_not_unique :
    ¬ (∀ rows : List StatsAggRow, statsAggUniqueOk rows →
        ∀ sid, classRowCount sid rows ≤ 1) := by
  intro h
  have h2 := h [⟨1, none, 0, 0⟩, ⟨1, none, 1, 2⟩] ?_ 1
  · revert h2
    decide
  · simp [statsAggUniqueOk, aggKeyConflict]

/-- C5 (amended): the schema's unique key guarantees at most one aggregate
row per `(session, participant)` for every concrete participant; the
class-wide row (`participant_id` NULL) is outside this guarantee because the
nullable column makes the MySQL unique index treat its rows as distinct. -/
theorem c5_participant_rows_unique (rows : List StatsAggRow)
    (h : statsAggUniqueOk rows) (sid pid : Nat) :
    participantRowCount sid pid rows ≤ 1 := by
  refine filter_length_le_one _ (fun a b => ¬ aggKeyConflict a b) ?_ rows h
  intro a b hR hPa hPb
  have ha := of_decide_eq_true hPa
  have hb := of_decide_eq_true hPb
  refine hR ⟨?_, ?_, ?_⟩
  · rw [ha.1, hb.1]
  · simp [ha.2]
  · rw [ha.2, hb.2]

/-- C5 witness: a concrete accepted table state with one class row and one
participant row. -/
theorem c5_participant_rows_unique_witness :
    participantRowCount 1 7
      [({ session_id := 1, participant_id := some 7, correct_count := 3,
          wrong_count := 1 } : StatsAggRow),
        { session_id := 1, participant_id := none, correct_count := 3,
          wrong_count := 1 }] ≤ 1 :=
  c5_participant_rows_unique _ (by simp [statsAggUniqueOk, aggKeyConflict]) 1 7

/-- C6: in every table state accepted by the schema, no two
`session_answers` rows share `(session_id, participant_id, question_id,
attempt_no)` and no two `session_participants` rows share
`(session_id, nickname)` — each key tuple matches at most one row. -/
theorem c6_storage_unique_keys (arows : List SessionAnswerRow)
    (prows : List SessionParticipantRow)
    (ha : sessionAnswersUniqueOk arows) (hp : sessionParticipantsUniqueOk prows)
    (k : Nat × Nat × Nat × Nat) (k2 : Nat × String) :
    (arows.filter (fun r => decide (answerKeyTuple r = k))).length ≤ 1 ∧
    (prows.filter (fun r => decide (participantKeyTuple r = k2))).length ≤ 1 := by
  constructor
  · refine filter_length_le_one _ (fun a b => answerKeyTuple a ≠ answerKeyTuple b)
      ?_ arows ha
    intro a b hR hPa hPb
    exact hR ((of_decide_eq_true hPa).trans (of_decide_eq_true hPb).symm)
  · refine filter_length_le_one _
      (fun a b => participantKeyTuple a ≠ participantKeyTuple b) ?_ prows hp
    intro a b hR hPa hPb
    exact hR ((of_decide_eq_true hPa).trans (of_decide_eq_true hPb).symm)

/-- C6 witness: concrete accepted answer and participant tables — two
attempts of one student on one question and two distinct nicknames. -/
theorem c6_storage_unique_keys_witness :
    (([({ session_id := 1, participant_id := 1, question_id := 1, attempt_no := 1,
          is_correct := false } : SessionAnswerRow),
        { session_id := 1, participant_id := 1, question_id := 1, attempt_no := 2,
          is_correct := true }]).filter
      (fun r => decide (answerKeyTuple r = (1, 1, 1, 1)))).length ≤ 1 ∧
    (([({ session_id := 1, nickname := "alice", join_state := "playing" } :
          SessionParticipantRow),
        { session_id := 1, nickname := "bob", join_state := "waiting" }]).filter
      (fun r => decide (participantKeyTuple r = (1, "alice")))).length ≤ 1 :=
  c6_storage_unique_keys _ _
    (by simp [sessionAnswersUniqueOk, answerKeyTuple])
    (by simp [sessionParticipantsUniqueOk, participantKeyTuple])
    (1, 1, 1, 1) (1, "alice")

/-- C7 counterexample: the `quiz_answers` schema does not guarantee a
non-empty multi answer key — a row whose `multi_option_external_ids` is the
empty JSON array satisfies every constraint the DDL declares. -/
theorem c7_schema_allows_empty_multi :
    ¬ (∀ r : QuizAnswersRow, quizAnswersRowOk r = true →
        ¬ (r.multi_option_external_ids = some [])) := by
  intro h
  exact h { question_id := 1, open_text := none, single_option_external_id := none,
            multi_option_external_ids := some [] } rfl rfl

/-- Every multi answer-id list built by the quiz builder is non-empty:
either at least one checkbox is ticked, or the fallback singleton is
used. -/
theorem multiAnswerIds_ne_nil (d : DraftQuestion) : multiAnswerIds d ≠ [] := by
  unfold multiAnswerIds
  by_cases h : (multiSelectedIds d).length > 0
  · simp only [h, if_true]
    exact List.length_pos.mp h
  · simp [h]

/-- C7 (amended): the quiz-builder payload guarantees every `multi`
question a non-empty set of correct option ids; the `quiz_answers` storage
schema itself enforces no such constraint (its answer columns are nullable
JSON without a CHECK). -/
theorem c7_builder_multi_nonempty (d : DraftQuestion)
    (hd : d.dtype = QType.qMulti) :
    ∃ ids, (toQuizQuestion d).answer = AnswerKey.keyOptions ids ∧ ids ≠ [] := by
  refine ⟨multiAnswerIds d, ?_, multiAnswerIds_ne_nil d⟩
  simp [toQuizQuestion, hd]

/-- C7 witness: a draft multi question with no checkbox ticked still
receives a non-empty key (the fallback `[o1]`). -/
theorem c7_builder_multi_nonempty_witness :
    ∃ ids,
      (toQuizQuestion
        { id := "q1", dtype := QType.qMulti, prompt := "p",
          options := ["A", "B"], openAnswer := "", singleCorrect := 0,
          multiCorrect := [false, false] }).answer = AnswerKey.keyOptions ids ∧
      ids ≠ [] :=
  c7_builder_multi_nonempty
    { id := "q1", dtype := QType.qMulti, prompt := "p", options := ["A", "B"],
      openAnswer := "", singleCorrect := 0, multiCorrect := [false, false] } rfl

/-- The multi-selection invariant of the `QuestionCard` state: no option id
is listed twice and every listed id belongs to the question's own
options. -/
def cardMultiInv (q : ClientQuestion) (st : CardState) : Prop :=
  st.multi.Nodup ∧ ∀ oid ∈ st.multi, oid ∈ clientOptionIds q

/-- Every `QuestionCard` interaction preserves the multi-selection
invariant. -/
theorem cardStep_inv (q : ClientQuestion) (st : CardState) (e : CardEvent)
    (h : cardMultiInv q st) : cardMultiInv q (cardStep q st e) := by
  obtain ⟨hnd, hmem⟩ := h
  cases e with
  | setOpen s => exact ⟨hnd, hmem⟩
  | pickSingle i =>
    cases hget : (clientOptionIds q)[i]? with
    | none => simpa [cardStep, cardMultiInv, hget] using And.intro hnd hmem
    | some oid => simpa [cardStep, cardMultiInv, hget] using And.intro hnd hmem
  | toggleMulti i =>
    cases hget : (clientOptionIds q)[i]? with
    | none => simpa [cardStep, cardMultiInv, hget] using And.intro hnd hmem
    | some oid =>
      have hopt : oid ∈ clientOptionIds q := by
        have := List.getElem?_eq_some_iff.mp hget
        obtain ⟨hlt, heq⟩ := this
        exact heq ▸ List.getElem_mem hlt
      by_cases hin : oid ∈ st.multi
      · refine ⟨?_, ?_⟩
        · simp only [cardStep, hget, hin, if_true]
          exact hnd.filter _
        · intro x hx
          simp only [cardStep, hget, hin, if_true] at hx
          exact hmem x (List.mem_of_mem_filter hx)
      · refine ⟨?_, ?_⟩
        · simp only [cardStep, hget, hin, if_false]
          rw [List.nodup_append]
          refine ⟨hnd, List.nodup_singleton oid, ?_⟩
          intro a hal har
          rw [List.mem_singleton] at har
          exact hin (har ▸ hal)
        · intro x hx
          simp only [cardStep, hget, hin, if_false, List.mem_append,
            List.mem_singleton] at hx
          rcases hx with hx | hx
          · exact hmem x hx
          · exact hx ▸ hopt

/-- The multi-selection invariant holds in every reachable `QuestionCard`
state. -/
theorem runCard_inv (q : ClientQuestion) (evs : List CardEvent) :
    cardMultiInv q (runCard q evs) := by
  have hstep : ∀ (l : List CardEvent) (st : CardState), cardMultiInv q st →
      cardMultiInv q (l.foldl (cardStep q) st) := by
    intro l
    induction l with
    | nil => intro st h; exact h
    | cons e rest ih =>
      intro st h
      exact ih (cardStep q st e) (cardStep_inv q st e h)
  refine hstep evs initCardState ⟨List.nodup_nil, ?_⟩
  intro oid hoid
  simp [initCardState] at hoid

/-- C8: in every reachable `QuestionCard` state the submitted payload's
shape is the one belonging to the question's type, and a multi submission
lists each option id at most once and only ids of that question's own
options. -/
theorem c8_submission_shape_invariant (q : ClientQuestion) (evs : List CardEvent) :
    payloadShape (cardSubmit q (runCard q evs)) = q.qtype ∧
    (runCard q evs).multi.Nodup ∧
    ∀ oid ∈ (runCard q evs).multi, oid ∈ clientOptionIds q := by
  obtain ⟨hnd, hmem⟩ := runCard_inv q evs
  refine ⟨?_, hnd, hmem⟩
  cases hq : q.qtype <;> simp [cardSubmit, payloadShape, hq]

/-- Splitting an all-whitespace suffix yields only the word accumulated so
far. -/
theorem wordsAux_all_ws (ws : List Char)
    (h : ∀ c ∈ ws, c.isWhitespace = true) (acc : List Char) :
    wordsAux ws acc = if acc.isEmpty then [] else [acc.reverse] := by
  induction ws generalizing acc with
  | nil => simp [wordsAux]
  | cons c cs ih =>
    have hc : c.isWhitespace = true := h c (by simp)
    have hrest : ∀ x ∈ cs, x.isWhitespace = true := fun x hx => h x (by simp [hx])
    by_cases hacc : acc.isEmpty
    · simp [wordsAux, hc, hacc, ih hrest []]
    · simp [wordsAux, hc, hacc, ih hrest []]

/-- Leading whitespace does not change the word split. -/
theorem wordsAux_drop_leading_ws (ws rest : List Char)
    (h : ∀ c ∈ ws, c.isWhitespace = true) :
    wordsAux (ws ++ rest) [] = wordsAux rest [] := by
  induction ws with
  | nil => rfl
  | cons c cs ih =>
    have hc : c.isWhitespace = true := h c (by simp)
    have hrest : ∀ x ∈ cs, x.isWhitespace = true := fun x hx => h x (by simp [hx])
    simpa [wordsAux, hc] using ih hrest

/-- Trailing whitespace does not change the word split. -/
theorem wordsAux_drop_trailing_ws (rest ws : List Char)
    (h : ∀ c ∈ ws, c.isWhitespace = true) :
    ∀ acc, wordsAux (rest ++ ws) acc = wordsAux rest acc := by
  induction rest with
  | nil =>
    intro acc
    simpa [wordsAux] using wordsAux_all_ws ws h acc
  | cons c cs ih =>
    intro acc
    by_cases hw : c.isWhitespace
    · by_cases hacc : acc.isEmpty
      · simp [wordsAux, hw, hacc, ih]
      · simp [wordsAux, hw, hacc, ih]
    · simp [wordsAux, hw, ih]

/-- Open-answer normalisation ignores surrounding whitespace. -/
theorem normalizeOpen_surround_ws (t : String) (ws1 ws2 : List Char)
    (h1 : ∀ c ∈ ws1, c.isWhitespace = true)
    (h2 : ∀ c ∈ ws2, c.isWhitespace = true) :
    normalizeOpen (String.mk ws1 ++ t ++ String.mk ws2) = normalizeOpen t := by
  have hdata : (String.mk ws1 ++ t ++ String.mk ws2).data = ws1 ++ (t.data ++ ws2) := by
    simp [String.data_append]
  rw [normalizeOpen, normalizeOpen, hdata,
    wordsAux_drop_leading_ws ws1 (t.data ++ ws2) h1,
    wordsAux_drop_trailing_ws t.data ws2 h2]

/-- A multi question with the given key, as the grader sees it. -/
def multiQuestion (kids : List String) : PayloadQuestion :=
  { id := "q", qtype := QType.qMulti, prompt := "", options := [],
    answer := AnswerKey.keyOptions kids }

/-- An open question with the given key text, as the grader sees it. -/
def openQuestion (t : String) : PayloadQuestion :=
  { id := "q", qtype := QType.qOpen, prompt := "", options := [],
    answer := AnswerKey.keyText t }

/-- C3: grading a question against its own answer key yields `Correct`;
grading a multi key presented in reverse order yields `Correct`; and
grading an open key text wrapped in extra surrounding whitespace yields
`Correct` under the trim/collapse/lowercase/strip-punctuation
normalisation. -/
theorem c3_grader_round_trip (q : PayloadQuestion) (hq : keyNonEmpty q)
    (kids : List String) (hkids : kids ≠ []) (t : String) (ws1 ws2 : List Char)
    (h1 : ∀ c ∈ ws1, c.isWhitespace = true)
    (h2 : ∀ c ∈ ws2, c.isWhitespace = true) :
    grade q (submissionOfKey q.answer) = Verdict.Correct ∧
    grade (multiQuestion kids) (Submission.subOptions kids.reverse) =
      Verdict.Correct ∧
    grade (openQuestion t)
      (Submission.subText (String.mk ws1 ++ t ++ String.mk ws2)) =
      Verdict.Correct := by
  refine ⟨?_, ?_, ?_⟩
  · obtain ⟨qid, qt, pr, opts, ans⟩ := q
    cases ans with
    | keyText kt => simp [grade, submissionOfKey]
    | keyOption kid => simp [grade, submissionOfKey]
    | keyOptions kids2 =>
      have hne : kids2 ≠ [] := hq
      have hempty : kids2.isEmpty = false := by
        simpa [List.isEmpty_iff] using hne
      have hsame : sameIdSet kids2 kids2 = true := by
        simp [sameIdSet]
      simp [grade, submissionOfKey, hempty, hsame]
  · have hempty : kids.reverse.isEmpty = false := by
      simp [List.isEmpty_iff, hkids]
    have hsame : sameIdSet kids.reverse kids = true := by
      simp [sameIdSet]
    simp [grade, multiQuestion, hempty, hsame]
  · have hnorm := normalizeOpen_surround_ws t ws1 ws2 h1 h2
    simp [grade, openQuestion, hnorm]

/-- C3 witness: concrete multi and open keys, graded in reverse order and
with one space of surrounding whitespace. -/
theorem c3_grader_round_trip_witness :
    grade (multiQuestion ["o2", "o4"])
      (submissionOfKey (multiQuestion ["o2", "o4"]).answer) = Verdict.Correct ∧
    grade (multiQuestion ["o2", "o4"])
      (Submission.subOptions (["o2", "o4"]).reverse) = Verdict.Correct ∧
    grade (openQuestion ("Peter the Great"))
      (Submission.subText (String.mk [Char.ofNat 32] ++ ("Peter the Great") ++
        String.mk [Char.ofNat 32])) = Verdict.Correct :=
  c3_grader_round_trip (multiQuestion ["o2", "o4"]) (by simp [multiQuestion, keyNonEmpty])
    ["o2", "o4"] (by simp) ("Peter the Great") [Char.ofNat 32] [Char.ofNat 32]
    (by decide) (by decide)

end HoroQuiz
